import Mathlib

/-!
Verification of the BinaryTradeX process-supervised reverse proxy
(`src/main.py`) and the Binomo backend service (`src/binomo_service.py`).

The Python code is shallowly embedded: pure fragments become Lean
functions; effectful fragments (logging, closing channels, joining
threads) become explicit traces of operations; fallible calls (the
outbound HTTP request, the trading client) are parameters of type
`Except String _`, an `Except.error` standing for a raised exception.
-/

namespace BinaryTradeX

/-! ### HTTP Forwarder (`src/main.py`, function `proxy`)

An inbound Flask request; headers are the WSGI header sequence,
cookies the cookie mapping, the body an opaque byte sequence. -/

structure InReq where
  method : String
  path : String
  queryString : String
  headers : List (String × String)
  body : List Nat
  cookies : List (String × String)

/-- The outbound `requests.request(...)` call as constructed by `proxy`. -/
structure OutReq where
  method : String
  url : String
  headers : List (String × String)
  data : List Nat
  cookies : List (String × String)
  allowRedirects : Bool
  timeout : Nat
deriving DecidableEq

/-- The backend's answer: status code, the raw response headers
(`resp.raw.headers.items()`), and the content bytes. -/
structure BackendResp where
  status : Nat
  headers : List (String × String)
  content : List Nat
deriving DecidableEq

/-- A Flask response body: either bytes (`resp.content`) or a Python
string (the error branch returns an f-string). -/
inductive RespBody where
  | bytes (b : List Nat)
  | text (s : String)
deriving DecidableEq

structure FlaskResp where
  status : Nat
  headers : List (String × String)
  body : RespBody
deriving DecidableEq

/-- `excluded_headers` from `proxy` (src/main.py line 128). -/
def excluded_headers : List String :=
  ["content-encoding", "content-length", "transfer-encoding", "connection"]

/-- One insertion into a Python dict: an existing key has its value
replaced in place, a new key is appended. -/
def dictInsert (d : List (String × String)) (k v : String) :
    List (String × String) :=
  match d with
  | [] => [(k, v)]
  | (k0, v0) :: rest =>
      if k0 = k then (k0, v) :: rest else (k0, v0) :: dictInsert rest k v

/-- The dict comprehension over header pairs: later occurrences of a
key overwrite earlier ones, insertion order of first occurrence kept. -/
def dictOfPairs (ps : List (String × String)) : List (String × String) :=
  ps.foldl (fun d kv => dictInsert d kv.1 kv.2) []

/-- `url = f"http://localhost:5001/{path}"` plus the query string when
it is non-empty (src/main.py lines 114-116). -/
def buildUrl (req : InReq) : String :=
  let url := "http://localhost:5001/" ++ req.path
  if req.queryString = "" then url else url ++ "?" ++ req.queryString

/-- The outbound request built by `proxy` (src/main.py lines 118-126):
same method, body and cookies; headers are the inbound headers with
`Host` dropped (case-insensitively), passed through a dict
comprehension; redirects are not followed; timeout 30. -/
def outboundRequest (req : InReq) : OutReq :=
  { method := req.method
  , url := buildUrl req
  , headers := dictOfPairs (req.headers.filter (fun kv => kv.1.toLower != "host"))
  , data := req.body
  , cookies := req.cookies
  , allowRedirects := false
  , timeout := 30 }

/-- Response-header filtering (src/main.py lines 128-130). -/
def filterRespHeaders (hs : List (String × String)) : List (String × String) :=
  hs.filter (fun nv => !(excluded_headers.contains nv.1.toLower))

/-- The body of `proxy` (src/main.py lines 112-134), instrumented with
the list of outbound calls it performs.  The single `requests.request`
call either returns a `BackendResp` or raises a `RequestException`
(`Except.error`), in which case the handler returns the 502 tuple. -/
def proxyRun (backend : OutReq → Except String BackendResp) (req : InReq) :
    FlaskResp × List OutReq :=
  let oreq := outboundRequest req
  match backend oreq with
  | Except.ok resp =>
      ({ status := resp.status
       , headers := filterRespHeaders resp.headers
       , body := RespBody.bytes resp.content }, [oreq])
  | Except.error e =>
      ({ status := 502
       , headers := []
       , body := RespBody.text ("Proxy error: " ++ e) }, [oreq])

/-- The response produced by `proxy`. -/
def proxy (backend : OutReq → Except String BackendResp) (req : InReq) :
    FlaskResp :=
  (proxyRun backend req).1

/-! ### Readiness monitor (`src/main.py`, `start_node_server`, lines 42-45)

`for line in node_process.stdout: print(...); if "serving on port" in
line.lower(): node_ready = True` -/

/-- Bool test: does `needle` occur at the start of `hay`? -/
def listStartsWith : List Char → List Char → Bool
  | _, [] => true
  | [], _ :: _ => false
  | a :: as, b :: bs => a == b && listStartsWith as bs

/-- Bool test: does `needle` occur anywhere inside `hay`
(Python `needle in hay` on strings)? -/
def hasSubstring : List Char → List Char → Bool
  | [], needle => needle.isEmpty
  | a :: rest, needle => listStartsWith (a :: rest) needle || hasSubstring rest needle

/-- The fixed readiness phrase tested for (src/main.py line 44). -/
def readiness_phrase : String := "serving on port"

/-- `"serving on port" in line.lower()` — the case-insensitive
substring test applied to each output line. -/
def lineMatches (line : String) : Bool :=
  hasSubstring line.toLower.data readiness_phrase.data

/-- Effect of one loop iteration on `node_ready`: set to `True` when
the line matches, otherwise left unchanged. -/
def monitorStep (r : Bool) (line : String) : Bool :=
  if lineMatches line then true else r

/-- The monitor loop over the backend's output lines, starting from
flag value `r`: each iteration first echoes the line to the log and
then tests it; every entry pairs the echoed string with the flag value
after that iteration. -/
def monitorRun (r : Bool) : List String → List (String × Bool)
  | [] => []
  | line :: rest =>
      let r' := monitorStep r line
      ("[Node.js] " ++ line.trim, r') :: monitorRun r' rest

/-- The successive values taken by `node_ready`: the initial value
followed by the value after each processed line. -/
def readyStates (r : Bool) : List String → List Bool
  | [] => [r]
  | line :: rest => r :: readyStates (monitorStep r line) rest

/-- Number of false-to-true transitions between adjacent flag values. -/
def riseCount : List Bool → Nat
  | [] => 0
  | [_] => 0
  | a :: b :: rest => (if !a && b then 1 else 0) + riseCount (b :: rest)

/-- Number of true-to-false transitions between adjacent flag values. -/
def fallCount : List Bool → Nat
  | [] => 0
  | [_] => 0
  | a :: b :: rest => (if a && !b then 1 else 0) + fallCount (b :: rest)

/-! ### Backend launcher (`src/main.py`, `start_node_server`, lines 29-48) -/

/-- Outcome of running `start_node_server` once: everything it printed,
the final value of `node_ready`, and the exit code it forced on the
whole process (`none`: the function returns and the process keeps
running — the code contains no `sys.exit` call). -/
structure LaunchResult where
  log : List String
  ready : Bool
  exitCode : Option Nat
deriving DecidableEq

/-- `start_node_server`, with the result of `subprocess.Popen` as a
parameter: `Except.ok lines` is a successful spawn whose combined
output stream yields `lines`; `Except.error e` is a raised spawn
exception, caught by the handler, which prints the error message and
returns (the surrounding thread ends, the process continues). -/
def start_node_server (spawn : Except String (List String)) : LaunchResult :=
  match spawn with
  | Except.error e =>
      { log := ["🚀 Starting Node.js server...", "❌ Error starting Node.js: " ++ e]
      , ready := false
      , exitCode := none }
  | Except.ok lines =>
      { log := "🚀 Starting Node.js server..." :: (monitorRun false lines).map Prod.fst
      , ready := lines.foldl monitorStep false
      , exitCode := none }

/-! ### Startup wait (`src/main.py`, module level, lines 53-62, 136-142)

`for _ in range(30): time.sleep(1); if node_ready: break`, then the
ready/warning log line, then (under `__main__`) `serve_forever`.
Time is measured in sleep units; `ready t` is the value of the shared
`node_ready` flag as observed at time `t`. -/

inductive StartupOp where
  | startBackendThread
  | sleepTick (t : Nat)
  | logReadyMsg
  | logWarnMsg
  | serve
deriving DecidableEq

/-- The polling loop with `fuel` iterations left at elapsed time `t`:
each iteration sleeps one unit and then checks the flag, breaking when
it is observed true.  Returns the ticks performed and the elapsed time
when the loop ends. -/
def startupLoop (ready : Nat → Bool) : Nat → Nat → List StartupOp × Nat
  | 0, t => ([], t)
  | n + 1, t =>
      if ready (t + 1) then ([StartupOp.sleepTick (t + 1)], t + 1)
      else
        let r := startupLoop ready n (t + 1)
        (StartupOp.sleepTick (t + 1) :: r.1, r.2)

/-- Elapsed time when the 30-iteration wait loop ends. -/
def startupElapsed (ready : Nat → Bool) : Nat := (startupLoop ready 30 0).2

/-- The Front Controller's startup sequence: start the backend thread,
run the wait loop, log the outcome, and serve traffic. -/
def startupTrace (ready : Nat → Bool) : List StartupOp :=
  let r := startupLoop ready 30 0
  (StartupOp.startBackendThread :: r.1 ++
    [if ready r.2 then StartupOp.logReadyMsg else StartupOp.logWarnMsg]) ++
    [StartupOp.serve]

/-! ### Upgrade Bridge forwarding loops (`src/main.py`, lines 74-90)

One receive attempt on a channel either yields a message payload
(possibly empty: gevent returns `None`/empty data on a closed peer,
modelled as the empty payload) or raises, modelled as `fail`. -/

inductive WsEvent where
  | msg (payload : List Nat)
  | fail
deriving DecidableEq

/-- `forward_to_node`: `while True: try: message = ws.receive(); if
message: node_ws.send(message) except: break` — returns the payloads
sent to the backend channel, in order. -/
def forward_to_node : List WsEvent → List (List Nat)
  | [] => []
  | WsEvent.fail :: _ => []
  | WsEvent.msg m :: rest =>
      if m.isEmpty then forward_to_node rest else m :: forward_to_node rest

/-- `forward_from_node`: the symmetric loop (`node_ws.recv()` /
`ws.send`), returning the payloads sent to the inbound channel. -/
def forward_from_node : List WsEvent → List (List Nat)
  | [] => []
  | WsEvent.fail :: _ => []
  | WsEvent.msg m :: rest =>
      if m.isEmpty then forward_from_node rest else m :: forward_from_node rest

/-! ### Upgrade Bridge handler (`src/main.py`, `websocket`, lines 64-108) -/

/-- The observable actions of the `/ws` handler, in program order. -/
inductive BridgeOp where
  | connectBackend
  | startForwardLoops
  | joinForward (n : Nat)
  | logError (msg : String)
  | closeOutbound
  | closeInbound
deriving DecidableEq

structure WsResponse where
  status : Nat
  headers : List (String × String)
deriving DecidableEq

/-- The `finally` block: `try: node_ws.close() except: pass`.  Whether
the close succeeds or raises (channel already closed by its peer), the
exception is swallowed and execution continues normally, so both
branches contribute the same single action. -/
def tryCloseOutbound (closeRes : Except String Unit) : List BridgeOp :=
  match closeRes with
  | Except.ok _ => [BridgeOp.closeOutbound]
  | Except.error _ => [BridgeOp.closeOutbound]

/-- The `/ws` handler.  `isUpgrade` is whether `wsgi.websocket` is in
the request environment; `connect` the outcome of
`websocket.create_connection` (an `Except.error` is a raised
exception, caught by the `except` clause which logs it — and in that
case `node_ws` was never bound, so the `finally` block's
`node_ws.close()` raises `NameError`, swallowed by its bare `except`,
closing nothing); `closeRes` the outcome of `node_ws.close()`.  On the
successful path the handler starts both forwarding loops, joins the
first and then the second, and the `finally` block closes the outbound
channel.  In every case control falls through to
`return Response(status=426, headers=...)`. -/
def websocket (isUpgrade : Bool) (connect : Except String Unit)
    (closeRes : Except String Unit) : List BridgeOp × WsResponse :=
  let resp : WsResponse := { status := 426, headers := [("Upgrade", "websocket")] }
  if isUpgrade then
    match connect with
    | Except.ok _ =>
        ([BridgeOp.connectBackend, BridgeOp.startForwardLoops,
          BridgeOp.joinForward 1, BridgeOp.joinForward 2] ++
          tryCloseOutbound closeRes, resp)
    | Except.error e =>
        ([BridgeOp.logError ("WebSocket error: " ++ e)], resp)
  else ([], resp)

/-! ### Binomo backend service (`src/binomo_service.py`)

JSON values, as produced by `jsonify`.  The service only passes
numeric fields through `float(...)` without arithmetic, so numbers
are modelled as integers. -/

inductive JVal where
  | jNull
  | jBool (b : Bool)
  | jInt (n : Int)
  | jStr (s : String)
  | jArr (xs : List JVal)
  | jObj (fields : List (String × JVal))

/-- The module-level mutable state of the service (`is_connected`,
`current_balance` as the demo/real pair, `active_assets`,
`candle_data`).  `binomo_client` is passed separately below. -/
structure SvcState where
  is_connected : Bool
  current_balance : Int × Int
  active_assets : List JVal
  candle_data : List (String × JVal)

/-- One asset dict as returned by `get_all_open_time`; keys read with
`.get(key, default)` are `Option` fields. -/
structure Asset where
  id : Int
  name : String
  symbol : Option String
  type_ : Option String
  payout : Option Int
  is_open : Option Bool

/-- One candle dict as returned by `get_candles`. -/
structure Candle where
  at_ : Option Int
  open_ : Option Int
  high : Option Int
  low : Option Int
  close : Option Int
  volume : Option Int

/-- The JSON body of a POST to `/trade`. -/
structure TradeReq where
  asset_id : Option String
  amount : Option Int
  direction : Option String
  duration : Option Int

/-- The JSON body of a POST to `/account/switch`. -/
structure SwitchReq where
  type_ : Option String

/-- The wrapped trading client (`binomoapi.stable_api.Binomo`): each
method either returns a value or raises (`Except.error`), the raised
message being what `str(e)` yields in the handler. -/
structure BinomoClient where
  get_balance : Except String (List (String × Int))
  get_all_open_time : Except String (List Asset)
  get_candles : String → Int → Int → Except String (List Candle)
  buy : Option String → Int → String → Int →
    Except String (Bool × List (String × JVal))
  check_win : String → Except String JVal
  change_balance : String → Except String Unit

/-- What a handler returns: HTTP status, JSON body, and the list of
trading-client methods it invoked (instrumentation). -/
structure HandlerOut where
  status : Nat
  body : JVal
  calls : List String

/-- `jsonify with an error key` bodies. -/
def errJ (e : String) : JVal := JVal.jObj [("error", JVal.jStr e)]

/-- The guard response shared by every endpoint except `/health`:
status 503, body with error text `Not connected to Binomo`, no client
call performed. -/
def notConnected503 : HandlerOut :=
  { status := 503, body := errJ "Not connected to Binomo", calls := [] }

/-- Python `d.get(k, dflt)` on a string-to-int dict. -/
def dget (d : List (String × Int)) (k : String) (dflt : Int) : Int :=
  match d.lookup k with
  | some v => v
  | none => dflt

/-- Python `d.get(k)` on a string-to-JSON dict (`None` when absent). -/
def jdGet (d : List (String × JVal)) (k : String) : JVal :=
  match d.lookup k with
  | some v => v
  | none => JVal.jNull

/-- Python `int(s)` on a string, raising on a non-numeric literal. -/
def pyInt (s : String) : Except String Int :=
  match s.toInt? with
  | some n => Except.ok n
  | none => Except.error ("invalid literal for int() with base 10: " ++ s)

/-- `/health` (lines 68-74): no connectivity guard. -/
def health (st : SvcState) : HandlerOut :=
  { status := 200
  , body := JVal.jObj
      [("status", JVal.jStr "ok"),
       ("connected", JVal.jBool st.is_connected),
       ("service", JVal.jStr "binomo-api")]
  , calls := [] }

/-- `/balance` (lines 76-90).  `typeArg` is the `type` query
parameter. -/
def get_balance (st : SvcState) (client : BinomoClient)
    (typeArg : Option String) : SvcState × HandlerOut :=
  if !st.is_connected then (st, notConnected503) else
  let balance_type := typeArg.getD "demo"
  match client.get_balance with
  | Except.error e =>
      (st, { status := 500, body := errJ e, calls := ["get_balance"] })
  | Except.ok balance =>
      (st, { status := 200
           , body := JVal.jObj
               [("demo", JVal.jInt (dget balance "demo" 0)),
                ("real", JVal.jInt (dget balance "real" 0)),
                ("current", JVal.jInt (dget balance balance_type 0))]
           , calls := ["get_balance"] })

/-- `/assets` (lines 92-114). -/
def get_assets (st : SvcState) (client : BinomoClient) :
    SvcState × HandlerOut :=
  if !st.is_connected then (st, notConnected503) else
  match client.get_all_open_time with
  | Except.error e =>
      (st, { status := 500, body := errJ e, calls := ["get_all_open_time"] })
  | Except.ok assets =>
      let formatted_assets := (assets.filter (fun a => a.is_open.getD false)).map
        (fun a => JVal.jObj
          [("id", JVal.jInt a.id),
           ("name", JVal.jStr a.name),
           ("symbol", JVal.jStr (a.symbol.getD a.name)),
           ("category", JVal.jStr (a.type_.getD "forex")),
           ("isActive", JVal.jBool true),
           ("payoutRate", JVal.jInt (a.payout.getD 82))])
      (st, { status := 200
           , body := JVal.jArr formatted_assets
           , calls := ["get_all_open_time"] })

/-- One candle formatted by `/candles` (lines 128-138). -/
def fmtCandle (c : Candle) : JVal :=
  JVal.jObj
    [("timestamp", JVal.jInt (c.at_.getD 0)),
     ("open", JVal.jInt (c.open_.getD 0)),
     ("high", JVal.jInt (c.high.getD 0)),
     ("low", JVal.jInt (c.low.getD 0)),
     ("close", JVal.jInt (c.close.getD 0)),
     ("volume", JVal.jInt (c.volume.getD 0))]

/-- `/candles/<asset_id>` (lines 116-143).  `sizeArg`/`countArg` are
the raw `size`/`count` query parameters (defaults 60 and 100). -/
def get_candles (st : SvcState) (client : BinomoClient) (asset_id : String)
    (sizeArg countArg : Option String) : SvcState × HandlerOut :=
  if !st.is_connected then (st, notConnected503) else
  match (match sizeArg with | none => Except.ok 60 | some s => pyInt s) with
  | Except.error e => (st, { status := 500, body := errJ e, calls := [] })
  | Except.ok size =>
  match (match countArg with | none => Except.ok 100 | some s => pyInt s) with
  | Except.error e => (st, { status := 500, body := errJ e, calls := [] })
  | Except.ok count =>
  match client.get_candles asset_id size count with
  | Except.error e =>
      (st, { status := 500, body := errJ e, calls := ["get_candles"] })
  | Except.ok candles =>
      if candles.isEmpty then
        (st, { status := 200, body := JVal.jArr [], calls := ["get_candles"] })
      else
        (st, { status := 200
             , body := JVal.jArr (candles.map fmtCandle)
             , calls := ["get_candles"] })

/-- `/trade` (lines 145-177).  `data` is `request.json` (`none` when
the request carries no JSON body, in which case `data.get` raises an
`AttributeError`, caught and returned as a 500; the Python message
quotes NoneType and get, elided here). -/
def execute_trade (st : SvcState) (client : BinomoClient)
    (data : Option TradeReq) : SvcState × HandlerOut :=
  if !st.is_connected then (st, notConnected503) else
  match data with
  | none =>
      (st, { status := 500
           , body := errJ "NoneType object has no attribute get"
           , calls := [] })
  | some d =>
      let asset_id := d.asset_id
      let amount := d.amount.getD 1
      let direction := (d.direction.getD "call").toLower
      let duration := d.duration.getD 1
      match client.buy asset_id amount direction duration with
      | Except.error e =>
          (st, { status := 500, body := errJ e, calls := ["buy"] })
      | Except.ok (check, result) =>
          if check then
            (st, { status := 200
                 , body := JVal.jObj
                     [("success", JVal.jBool true),
                      ("trade_id", jdGet result "uuid"),
                      ("asset_id",
                        match asset_id with
                        | some s => JVal.jStr s
                        | none => JVal.jNull),
                      ("amount", JVal.jInt amount),
                      ("direction", JVal.jStr direction),
                      ("duration", JVal.jInt duration),
                      ("result", JVal.jObj result)]
                 , calls := ["buy"] })
          else
            (st, { status := 400
                 , body := JVal.jObj
                     [("success", JVal.jBool false),
                      ("error", JVal.jStr "Trade execution failed"),
                      ("details", JVal.jObj result)]
                 , calls := ["buy"] })

/-- `/trade/check/<trade_id>` (lines 179-191). -/
def check_trade (st : SvcState) (client : BinomoClient)
    (trade_id : String) : SvcState × HandlerOut :=
  if !st.is_connected then (st, notConnected503) else
  match client.check_win trade_id with
  | Except.error e =>
      (st, { status := 500, body := errJ e, calls := ["check_win"] })
  | Except.ok result =>
      (st, { status := 200
           , body := JVal.jObj
               [("trade_id", JVal.jStr trade_id), ("result", result)]
           , calls := ["check_win"] })

/-- `/account/switch` (lines 193-209). -/
def switch_account (st : SvcState) (client : BinomoClient)
    (data : Option SwitchReq) : SvcState × HandlerOut :=
  if !st.is_connected then (st, notConnected503) else
  match data with
  | none =>
      (st, { status := 500
           , body := errJ "NoneType object has no attribute get"
           , calls := [] })
  | some d =>
      let account_type := (d.type_.getD "PRACTICE").toUpper
      match client.change_balance account_type with
      | Except.error e =>
          (st, { status := 500, body := errJ e, calls := ["change_balance"] })
      | Except.ok _ =>
          (st, { status := 200
               , body := JVal.jObj
                   [("success", JVal.jBool true),
                    ("account_type", JVal.jStr account_type)]
               , calls := ["change_balance"] })

/-- `/price/current/<asset_id>` (lines 211-230). -/
def get_current_price (st : SvcState) (client : BinomoClient)
    (asset_id : String) : SvcState × HandlerOut :=
  if !st.is_connected then (st, notConnected503) else
  match client.get_candles asset_id 60 1 with
  | Except.error e =>
      (st, { status := 500, body := errJ e, calls := ["get_candles"] })
  | Except.ok candles =>
      match candles with
      | latest :: _ =>
          (st, { status := 200
               , body := JVal.jObj
                   [("asset_id", JVal.jStr asset_id),
                    ("price", JVal.jInt (latest.close.getD 0)),
                    ("timestamp", JVal.jInt (latest.at_.getD 0))]
               , calls := ["get_candles"] })
      | [] =>
          (st, { status := 404
               , body := errJ "No price data available"
               , calls := ["get_candles"] })

/-! ### Concrete sample inputs used to instantiate the theorems -/

/-- A sample inbound GET request to `/health`. -/
def req0 : InReq :=
  { method := "GET"
  , path := "health"
  , queryString := ""
  , headers := [("Host", "example.com"), ("Accept", "application/json")]
  , body := []
  , cookies := [("session", "abc")] }

/-- A sample backend response carrying two of the excluded headers. -/
def R0 : BackendResp :=
  { status := 200
  , headers :=
      [("Content-Type", "application/json"),
       ("Content-Length", "15"),
       ("Transfer-Encoding", "chunked"),
       ("X-Powered-By", "Express")]
  , content := [123, 34, 115, 34, 58, 34, 111, 107, 34, 125] }

/-- A backend that always answers with `R0`. -/
def backendOk : OutReq → Except String BackendResp := fun _ => Except.ok R0

/-- A backend whose transport always fails (connection refused). -/
def backendDown : OutReq → Except String BackendResp :=
  fun _ => Except.error "Connection refused"

/-- A sample disconnected service state. -/
def svc0 : SvcState :=
  { is_connected := false
  , current_balance := (0, 0)
  , active_assets := []
  , candle_data := [] }

/-- A sample trading client (every method raises). -/
def client0 : BinomoClient :=
  { get_balance := Except.error "boom"
  , get_all_open_time := Except.error "boom"
  , get_candles := fun _ _ _ => Except.error "boom"
  , buy := fun _ _ _ _ => Except.error "boom"
  , check_win := fun _ => Except.error "boom"
  , change_balance := fun _ => Except.error "boom" }

/-! ## Theorems -/

/-! ### Helper lemmas about the header dict -/

theorem dictInsert_not_mem (d : List (String × String)) (k v : String)
    (hk : k ∉ d.map Prod.fst) : dictInsert d k v = d ++ [(k, v)] := by
  induction d with
  | nil => rfl
  | cons kv rest ih =>
      simp only [List.map_cons, List.mem_cons] at hk
      push_neg at hk
      simp only [dictInsert]
      rw [if_neg (fun h => hk.1 h.symm)]
      simp [ih hk.2]

theorem dictOfPairs_foldl_nodup (ps : List (String × String)) :
    ∀ acc : List (String × String),
      (acc.map Prod.fst ++ ps.map Prod.fst).Nodup →
      ps.foldl (fun d kv => dictInsert d kv.1 kv.2) acc = acc ++ ps := by
  induction ps with
  | nil => intro acc _; simp
  | cons kv rest ih =>
      intro acc hnd
      have hmem : kv.1 ∉ acc.map Prod.fst := by
        have hd := (List.nodup_append.mp hnd).2.2
        intro hin
        exact hd hin (by simp)
      simp only [List.foldl_cons]
      rw [dictInsert_not_mem acc kv.1 kv.2 hmem]
      have hnd' : ((acc ++ [kv]).map Prod.fst ++ rest.map Prod.fst).Nodup := by
        have : (acc ++ [kv]).map Prod.fst ++ rest.map Prod.fst =
            acc.map Prod.fst ++ (kv :: rest).map Prod.fst := by
          simp
        rw [this]; exact hnd
      rw [ih (acc ++ [kv]) hnd']
      simp

theorem dictOfPairs_nodup (ps : List (String × String))
    (h : (ps.map Prod.fst).Nodup) : dictOfPairs ps = ps := by
  have := dictOfPairs_foldl_nodup ps [] (by simpa using h)
  simpa [dictOfPairs] using this

theorem outboundRequest_headers_of_nodup (req : InReq)
    (h : (req.headers.map Prod.fst).Nodup) :
    (outboundRequest req).headers =
      req.headers.filter (fun kv => kv.1.toLower != "host") := by
  have hsub : (req.headers.filter (fun kv => kv.1.toLower != "host")).map Prod.fst
      |>.Sublist (req.headers.map Prod.fst) :=
    (List.filter_sublist req.headers).map Prod.fst
  exact dictOfPairs_nodup _ (h.sublist hsub)

/-- C1.  For every inbound request with method in GET, POST, PUT,
DELETE, PATCH and any path (with the WSGI-guaranteed property that
inbound header keys are pairwise distinct), when the backend is
reachable and returns response `R`, the handler returns `R`'s status,
`R`'s body byte-for-byte, and `R`'s headers minus exactly the four
excluded ones; the outbound request carries the same method, body and
cookies, all inbound headers except `Host`, and redirects are not
followed. -/
theorem C1_forwarder_relays_backend_response
    (req : InReq) (backend : OutReq → Except String BackendResp)
    (R : BackendResp)
    (_hm : req.method ∈ ["GET", "POST", "PUT", "DELETE", "PATCH"])
    (hkeys : (req.headers.map Prod.fst).Nodup)
    (hb : backend (outboundRequest req) = Except.ok R) :
    (proxy backend req).status = R.status ∧
    (proxy backend req).body = RespBody.bytes R.content ∧
    (proxy backend req).headers =
      R.headers.filter (fun nv => !(excluded_headers.contains nv.1.toLower)) ∧
    (outboundRequest req).method = req.method ∧
    (outboundRequest req).data = req.body ∧
    (outboundRequest req).cookies = req.cookies ∧
    (outboundRequest req).headers =
      req.headers.filter (fun kv => kv.1.toLower != "host") ∧
    (outboundRequest req).allowRedirects = false := by
  refine ⟨?_, ?_, ?_, rfl, rfl, rfl,
    outboundRequest_headers_of_nodup req hkeys, rfl⟩ <;>
    simp [proxy, proxyRun, hb, filterRespHeaders]

/-- Witness for C1 at the sample request and backend. -/
theorem C1_witness :
    (proxy backendOk req0).status = R0.status ∧
    (proxy backendOk req0).body = RespBody.bytes R0.content ∧
    (proxy backendOk req0).headers =
      R0.headers.filter (fun nv => !(excluded_headers.contains nv.1.toLower)) ∧
    (outboundRequest req0).method = req0.method ∧
    (outboundRequest req0).data = req0.body ∧
    (outboundRequest req0).cookies = req0.cookies ∧
    (outboundRequest req0).headers =
      req0.headers.filter (fun kv => kv.1.toLower != "host") ∧
    (outboundRequest req0).allowRedirects = false :=
  C1_forwarder_relays_backend_response req0 backendOk R0
    (by decide) (by decide) rfl

/-- C2.  For every inbound request, if the single outbound call fails
at the transport level, the handler returns status 502 with a
non-empty diagnostic body naming the error, and performs exactly one
forwarding attempt, regardless of method or path. -/
theorem C2_backend_failure_yields_502
    (req : InReq) (backend : OutReq → Except String BackendResp) (e : String)
    (hb : backend (outboundRequest req) = Except.error e) :
    (proxyRun backend req).1.status = 502 ∧
    (proxyRun backend req).1.body = RespBody.text ("Proxy error: " ++ e) ∧
    ("Proxy error: " ++ e) ≠ "" ∧
    (proxyRun backend req).2 = [outboundRequest req] ∧
    (proxyRun backend req).2.length = 1 := by
  refine ⟨?_, ?_, ?_, ?_, ?_⟩
  · simp [proxyRun, hb]
  · simp [proxyRun, hb]
  · intro h
    have h' := congrArg String.length h
    simp [String.length_append] at h'
    exact absurd h'.1 (by decide)
  · simp [proxyRun, hb]
  · simp [proxyRun, hb]

/-- Witness for C2 at the sample request against the dead backend. -/
theorem C2_witness :
    (proxyRun backendDown req0).1.status = 502 ∧
    (proxyRun backendDown req0).1.body =
      RespBody.text ("Proxy error: " ++ "Connection refused") ∧
    ("Proxy error: " ++ "Connection refused") ≠ "" ∧
    (proxyRun backendDown req0).2 = [outboundRequest req0] ∧
    (proxyRun backendDown req0).2.length = 1 :=
  C2_backend_failure_yields_502 req0 backendDown "Connection refused" rfl

/-! ### Helper lemmas about the readiness monitor -/

theorem readyStates_eq (r : Bool) (lines : List String) :
    readyStates r lines = r :: (monitorRun r lines).map Prod.snd := by
  induction lines generalizing r with
  | nil => rfl
  | cons l ls ih => simp [readyStates, monitorRun, ih]

theorem fallCount_readyStates (lines : List String) :
    ∀ r, fallCount (readyStates r lines) = 0 := by
  induction lines with
  | nil => intro r; simp [readyStates, fallCount]
  | cons l ls ih =>
      intro r
      have h1 : readyStates r (l :: ls) = r :: readyStates (monitorStep r l) ls := rfl
      rw [h1, readyStates_eq (monitorStep r l) ls]
      simp only [fallCount]
      rw [← readyStates_eq (monitorStep r l) ls, ih (monitorStep r l)]
      cases r <;> cases h : lineMatches l <;> simp [monitorStep, h]

theorem riseCount_readyStates_true (lines : List String) :
    riseCount (readyStates true lines) = 0 := by
  induction lines with
  | nil => simp [readyStates, riseCount]
  | cons l ls ih =>
      have hm : monitorStep true l = true := by
        cases h : lineMatches l <;> simp [monitorStep, h]
      have h1 : readyStates true (l :: ls) = true :: readyStates (monitorStep true l) ls := rfl
      rw [h1, hm, readyStates_eq true ls]
      simp only [riseCount]
      rw [← readyStates_eq true ls, ih]
      simp

theorem riseCount_readyStates_false (lines : List String) :
    riseCount (readyStates false lines) = if lines.any lineMatches then 1 else 0 := by
  induction lines with
  | nil => simp [readyStates, riseCount]
  | cons l ls ih =>
      have h1 : readyStates false (l :: ls) = false :: readyStates (monitorStep false l) ls := rfl
      rw [h1]
      cases h : lineMatches l with
      | true =>
          have hm : monitorStep false l = true := by simp [monitorStep, h]
          rw [hm, readyStates_eq true ls]
          simp only [riseCount]
          rw [← readyStates_eq true ls, riseCount_readyStates_true ls]
          simp [h]
      | false =>
          have hm : monitorStep false l = false := by simp [monitorStep, h]
          rw [hm, readyStates_eq false ls]
          simp only [riseCount]
          rw [← readyStates_eq false ls, ih]
          simp [h]

theorem monitorRun_log (lines : List String) :
    ∀ r, (monitorRun r lines).map Prod.fst =
      lines.map (fun l => "[Node.js] " ++ l.trim) := by
  induction lines with
  | nil => intro r; rfl
  | cons l ls ih => intro r; simp [monitorRun, ih]

theorem foldl_monitorStep (lines : List String) :
    ∀ r, lines.foldl monitorStep r = (r || lines.any lineMatches) := by
  induction lines with
  | nil => intro r; simp
  | cons l ls ih =>
      intro r
      simp only [List.foldl_cons, List.any_cons, ih]
      cases r <;> cases h : lineMatches l <;> simp [monitorStep, h]

theorem readyStates_getD (lines : List String) :
    ∀ r k, k ≤ lines.length →
      (readyStates r lines).getD k false = (lines.take k).foldl monitorStep r := by
  induction lines with
  | nil =>
      intro r k hk
      have hz : k = 0 := Nat.le_zero.mp hk
      subst hz
      rfl
  | cons l ls ih =>
      intro r k hk
      cases k with
      | zero => rfl
      | succ j =>
          have hj : j ≤ ls.length := by simpa using hk
          calc (readyStates r (l :: ls)).getD (j + 1) false
              = (readyStates (monitorStep r l) ls).getD j false := rfl
            _ = (ls.take j).foldl monitorStep (monitorStep r l) :=
                ih (monitorStep r l) j hj
            _ = ((l :: ls).take (j + 1)).foldl monitorStep r := by simp

/-- C3.  Over the whole sequence of backend output lines the `ready`
flag never falls back from true to false; it rises from false to true
exactly once when some line matches the case-insensitive readiness
predicate and never otherwise; after `k` lines the flag is true
exactly when a match occurred among the first `k` lines (so the rise
happens on the first matching line); and every line is echoed to the
log (`monitorRun` pairs the echo of each line with the flag value
produced after it, the echo coming first). -/
theorem C3_ready_flag_single_rise (lines : List String) :
    fallCount (readyStates false lines) = 0 ∧
    riseCount (readyStates false lines) = (if lines.any lineMatches then 1 else 0) ∧
    (∀ k, k ≤ lines.length →
      (readyStates false lines).getD k false = (lines.take k).any lineMatches) ∧
    (monitorRun false lines).map Prod.fst =
      lines.map (fun l => "[Node.js] " ++ l.trim) := by
  refine ⟨fallCount_readyStates lines false, riseCount_readyStates_false lines,
    ?_, monitorRun_log lines false⟩
  intro k hk
  rw [readyStates_getD lines false k hk, foldl_monitorStep]
  simp

/-! ### Forwarding loops -/

theorem forward_to_node_relays (msgs : List (List Nat)) (rest : List WsEvent) :
    (∀ m ∈ msgs, m ≠ []) →
    forward_to_node (msgs.map WsEvent.msg ++ WsEvent.fail :: rest) = msgs := by
  induction msgs with
  | nil => intro _; rfl
  | cons m ms ih =>
      intro h
      have hm : m.isEmpty = false := by
        cases m with
        | nil => exact absurd rfl (h [] (by simp))
        | cons a as => rfl
      simp only [List.map_cons, List.cons_append, forward_to_node, hm,
        Bool.false_eq_true, if_false, List.append_eq]
      rw [ih (fun x hx => h x (by simp [hx]))]

theorem forward_from_node_relays (msgs : List (List Nat)) (rest : List WsEvent) :
    (∀ m ∈ msgs, m ≠ []) →
    forward_from_node (msgs.map WsEvent.msg ++ WsEvent.fail :: rest) = msgs := by
  induction msgs with
  | nil => intro _; rfl
  | cons m ms ih =>
      intro h
      have hm : m.isEmpty = false := by
        cases m with
        | nil => exact absurd rfl (h [] (by simp))
        | cons a as => rfl
      simp only [List.map_cons, List.cons_append, forward_from_node, hm,
        Bool.false_eq_true, if_false, List.append_eq]
      rw [ih (fun x hx => h x (by simp [hx]))]

/-- C4 counterexample.  A forwarding loop does NOT exit when its
receive operation returns an empty/terminal payload: after receiving
the empty payload the loop keeps running and still forwards the later
message `[7]`.  Had the loop exited at the empty signal, nothing would
have been sent. -/
theorem C4_counterexample :
    forward_to_node [WsEvent.msg [], WsEvent.msg [7], WsEvent.fail] = [[7]] ∧
    forward_to_node [WsEvent.msg [], WsEvent.msg [7], WsEvent.fail] ≠ [] := by
  exact ⟨rfl, by decide⟩

/-- C4 (amended).  For each direction independently, a sequence of N
non-empty messages received on one channel is sent to the other
channel unmodified and in receive order; each loop runs until its
receive operation raises, at which point it exits silently without
retrying (events after the failure are never consumed); an empty
received payload is skipped — not forwarded — and the loop continues
rather than exiting. -/
theorem C4_amended_loops_relay_in_order
    (msgs : List (List Nat)) (h : ∀ m ∈ msgs, m ≠ []) (rest : List WsEvent) :
    forward_to_node (msgs.map WsEvent.msg ++ WsEvent.fail :: rest) = msgs ∧
    forward_from_node (msgs.map WsEvent.msg ++ WsEvent.fail :: rest) = msgs :=
  ⟨forward_to_node_relays msgs rest h, forward_from_node_relays msgs rest h⟩

/-- Witness for C4 (amended) on two concrete messages, with a
trailing message after the failure that is never forwarded. -/
theorem C4_witness :
    forward_to_node
      ([[1], [2, 3]].map WsEvent.msg ++ WsEvent.fail :: [WsEvent.msg [9]]) =
      [[1], [2, 3]] ∧
    forward_from_node
      ([[1], [2, 3]].map WsEvent.msg ++ WsEvent.fail :: [WsEvent.msg [9]]) =
      [[1], [2, 3]] :=
  C4_amended_loops_relay_in_order [[1], [2, 3]] (by decide) [WsEvent.msg [9]]

/-! ### Bridge teardown -/

/-- C5 counterexample.  On a completed upgrade session the handler
closes only the outbound channel to the backend; the inbound channel
is never closed — refuting the claim that both channels are closed. -/
theorem C5_counterexample :
    BridgeOp.closeInbound ∉ (websocket true (Except.ok ()) (Except.ok ())).1 ∧
    BridgeOp.closeOutbound ∈ (websocket true (Except.ok ()) (Except.ok ())).1 := by
  decide

/-- C5 (amended).  When either forwarding loop of an upgrade session
exits, the Bridge waits for both loops to finish (joining the first
and then the second) and then closes the outbound channel to the
backend, tolerating errors from a channel already closed by its peer
(the result is the same whether the close succeeds or raises); the
inbound channel is not explicitly closed by the handler. -/
theorem C5_amended_joins_both_closes_outbound_only
    (closeRes : Except String Unit) :
    (websocket true (Except.ok ()) closeRes).1 =
      [BridgeOp.connectBackend, BridgeOp.startForwardLoops,
       BridgeOp.joinForward 1, BridgeOp.joinForward 2,
       BridgeOp.closeOutbound] ∧
    BridgeOp.closeInbound ∉ (websocket true (Except.ok ()) closeRes).1 := by
  cases closeRes with
  | ok u => exact ⟨rfl, by simp [websocket, tryCloseOutbound]⟩
  | error e => exact ⟨rfl, by simp [websocket, tryCloseOutbound]⟩

/-- C8.  Every request to the upgrade path that is not an upgrade
request receives status 426 with an `Upgrade` header naming
`websocket`, and no bridging action is performed. -/
theorem C8_non_upgrade_yields_426 (connect closeRes : Except String Unit) :
    (websocket false connect closeRes).2.status = 426 ∧
    ("Upgrade", "websocket") ∈ (websocket false connect closeRes).2.headers ∧
    (websocket false connect closeRes).1 = [] := by
  exact ⟨rfl, by simp [websocket], rfl⟩

/-- C10.  The upgrade-path handler returns the 426 Upgrade Required
response unconditionally as its HTTP return value: for a genuine
upgrade request after the bridged session ends, after a failure to
connect to the backend, and for a non-upgrade request alike. -/
theorem C10_handler_returns_426_unconditionally
    (isUpgrade : Bool) (connect closeRes : Except String Unit) :
    (websocket isUpgrade connect closeRes).2 =
      { status := 426, headers := [("Upgrade", "websocket")] } := by
  cases isUpgrade <;> cases connect <;> cases closeRes <;> rfl

/-! ### Startup wait lemmas -/

theorem startupLoop_succ_true (ready : Nat → Bool) (n t : Nat)
    (h : ready (t + 1) = true) :
    startupLoop ready (n + 1) t = ([StartupOp.sleepTick (t + 1)], t + 1) := by
  simp [startupLoop, h]

theorem startupLoop_succ_false (ready : Nat → Bool) (n t : Nat)
    (h : ready (t + 1) = false) :
    startupLoop ready (n + 1) t =
      (StartupOp.sleepTick (t + 1) :: (startupLoop ready n (t + 1)).1,
       (startupLoop ready n (t + 1)).2) := by
  simp [startupLoop, h]

theorem startupLoop_bounds (ready : Nat → Bool) (n : Nat) :
    ∀ t, t ≤ (startupLoop ready n t).2 ∧ (startupLoop ready n t).2 ≤ t + n := by
  induction n with
  | zero => intro t; simp [startupLoop]
  | succ n ih =>
      intro t
      cases h : ready (t + 1) with
      | true => rw [startupLoop_succ_true ready n t h]; constructor <;> omega
      | false =>
          rw [startupLoop_succ_false ready n t h]
          have ihh := ih (t + 1)
          constructor <;> omega

theorem startupLoop_not_ready_before (ready : Nat → Bool) (n : Nat) :
    ∀ t s, t < s → s < (startupLoop ready n t).2 → ready s = false := by
  induction n with
  | zero =>
      intro t s h1 h2
      simp [startupLoop] at h2
      omega
  | succ n ih =>
      intro t s h1 h2
      cases h : ready (t + 1) with
      | true =>
          rw [startupLoop_succ_true ready n t h] at h2
          omega
      | false =>
          rw [startupLoop_succ_false ready n t h] at h2
          by_cases hs : s = t + 1
          · rw [hs]; exact h
          · exact ih (t + 1) s (by omega) h2

theorem startupLoop_final (ready : Nat → Bool) (n : Nat) :
    ∀ t, ready (startupLoop ready n t).2 = true ∨
      (startupLoop ready n t).2 = t + n := by
  induction n with
  | zero => intro t; right; rfl
  | succ n ih =>
      intro t
      cases h : ready (t + 1) with
      | true => left; rw [startupLoop_succ_true ready n t h]; exact h
      | false =>
          rw [startupLoop_succ_false ready n t h]
          rcases ih (t + 1) with h2 | h2
          · left; exact h2
          · right; omega

theorem startupLoop_all_false (ready : Nat → Bool) (n : Nat) :
    ∀ t, (∀ s, t < s → s ≤ t + n → ready s = false) →
      (startupLoop ready n t).2 = t + n := by
  induction n with
  | zero => intro t _; rfl
  | succ n ih =>
      intro t hall
      have h : ready (t + 1) = false := hall (t + 1) (by omega) (by omega)
      rw [startupLoop_succ_false ready n t h]
      rw [ih (t + 1) (fun s hs1 hs2 => hall s (by omega) (by omega))]
      omega

theorem startupLoop_ticks (ready : Nat → Bool) (n : Nat) :
    ∀ t, (startupLoop ready n t).1 =
      (List.range' (t + 1) ((startupLoop ready n t).2 - t)).map
        StartupOp.sleepTick := by
  induction n with
  | zero => intro t; simp [startupLoop]
  | succ n ih =>
      intro t
      cases h : ready (t + 1) with
      | true =>
          rw [startupLoop_succ_true ready n t h]
          have h1 : t + 1 - t = 1 := by omega
          simp [h1]
      | false =>
          rw [startupLoop_succ_false ready n t h]
          have hle : t + 1 ≤ (startupLoop ready n (t + 1)).2 :=
            (startupLoop_bounds ready n (t + 1)).1
          have h2 : (startupLoop ready n (t + 1)).2 - t =
              ((startupLoop ready n (t + 1)).2 - (t + 1)) + 1 := by omega
          rw [ih (t + 1), h2, List.range'_succ]
          simp

theorem startupTrace_last (ready : Nat → Bool) :
    (startupTrace ready).getLast? = some StartupOp.serve := by
  rw [startupTrace]
  exact List.getLast?_concat _

/-- C6.  After starting the backend the Front Controller polls the
ready flag at a fixed interval of one time unit (the sleep ticks form
the consecutive sequence 1, 2, …) for at most 30 time units, stopping
the wait at the first time the flag is observed true; if the flag is
false at every poll up to the ceiling, the loop ends at time 30 and a
warning is logged; in every case the startup sequence ends by serving
traffic — a readiness timeout never fails startup. -/
theorem C6_startup_polls_then_serves (ready : Nat → Bool) :
    startupElapsed ready ≤ 30 ∧
    (startupLoop ready 30 0).1 =
      (List.range' 1 (startupElapsed ready)).map StartupOp.sleepTick ∧
    (∀ s, 1 ≤ s → s < startupElapsed ready → ready s = false) ∧
    (ready (startupElapsed ready) = true ∨ startupElapsed ready = 30) ∧
    ((∀ s, 1 ≤ s → s ≤ 30 → ready s = false) →
      startupElapsed ready = 30 ∧ StartupOp.logWarnMsg ∈ startupTrace ready) ∧
    (startupTrace ready).getLast? = some StartupOp.serve := by
  refine ⟨(startupLoop_bounds ready 30 0).2, ?_, ?_, ?_, ?_, startupTrace_last ready⟩
  · have h := startupLoop_ticks ready 30 0
    simpa [startupElapsed] using h
  · intro s h1 h2
    exact startupLoop_not_ready_before ready 30 0 s (by omega) h2
  · simpa [startupElapsed] using startupLoop_final ready 30 0
  · intro hall
    have he : startupElapsed ready = 30 :=
      startupLoop_all_false ready 30 0 (fun s hs1 hs2 => hall s (by omega) (by omega))
    refine ⟨he, ?_⟩
    have hr : ready (startupLoop ready 30 0).2 = false := by
      have : (startupLoop ready 30 0).2 = 30 := he
      rw [this]
      exact hall 30 (by omega) (by omega)
    rw [startupTrace]
    simp [hr]

/-! ### Launch failure -/

/-- C7 counterexample.  When spawning the backend fails, the launcher
logs the failure but the process does NOT exit: `start_node_server`
catches the exception, prints it and returns, forcing no exit code —
refuting the claim that the whole process exits non-zero. -/
theorem C7_counterexample :
    (start_node_server (Except.error "npx: command not found")).exitCode = none ∧
    "❌ Error starting Node.js: npx: command not found" ∈
      (start_node_server (Except.error "npx: command not found")).log := by
  exact ⟨rfl, by decide⟩

/-- C7 (amended).  If spawning the backend process fails irrecoverably,
the Front Controller logs the failure and continues running: the
launcher swallows the exception, the process forces no exit code, and
the ready flag stays false (so the startup wait later warns and serves
anyway, the same non-fatal path as a readiness timeout). -/
theorem C7_amended_launch_failure_logged_no_exit (e : String) :
    (start_node_server (Except.error e)).exitCode = none ∧
    (start_node_server (Except.error e)).ready = false ∧
    ("❌ Error starting Node.js: " ++ e) ∈
      (start_node_server (Except.error e)).log := by
  refine ⟨rfl, rfl, ?_⟩
  simp [start_node_server]

/-! ### Binomo service connectivity guard -/

/-- C9.  For every backend-service endpoint other than `/health` —
balance, assets, candles, trade, trade check, account switch, current
price — whenever the connected flag is false the handler returns
status 503 with the fixed JSON error body naming `Not connected to
Binomo`, performs no call to the trading client, and leaves all
service state unchanged. -/
theorem C9_disconnected_endpoints_return_503
    (st : SvcState) (client : BinomoClient)
    (typeArg : Option String) (asset_id : String)
    (sizeArg countArg : Option String) (tdata : Option TradeReq)
    (trade_id : String) (sdata : Option SwitchReq) (price_asset : String)
    (h : st.is_connected = false) :
    get_balance st client typeArg = (st, notConnected503) ∧
    get_assets st client = (st, notConnected503) ∧
    get_candles st client asset_id sizeArg countArg = (st, notConnected503) ∧
    execute_trade st client tdata = (st, notConnected503) ∧
    check_trade st client trade_id = (st, notConnected503) ∧
    switch_account st client sdata = (st, notConnected503) ∧
    get_current_price st client price_asset = (st, notConnected503) ∧
    notConnected503.status = 503 ∧
    notConnected503.body = JVal.jObj [("error", JVal.jStr "Not connected to Binomo")] ∧
    notConnected503.calls = [] := by
  refine ⟨?_, ?_, ?_, ?_, ?_, ?_, ?_, rfl, rfl, rfl⟩ <;>
    simp [get_balance, get_assets, get_candles, execute_trade, check_trade,
      switch_account, get_current_price, h]

/-- Witness for C9 at the sample disconnected state and client. -/
theorem C9_witness :
    get_balance svc0 client0 none = (svc0, notConnected503) ∧
    get_assets svc0 client0 = (svc0, notConnected503) ∧
    get_candles svc0 client0 "EURUSD" none none = (svc0, notConnected503) ∧
    execute_trade svc0 client0 none = (svc0, notConnected503) ∧
    check_trade svc0 client0 "t1" = (svc0, notConnected503) ∧
    switch_account svc0 client0 none = (svc0, notConnected503) ∧
    get_current_price svc0 client0 "EURUSD" = (svc0, notConnected503) ∧
    notConnected503.status = 503 ∧
    notConnected503.body = JVal.jObj [("error", JVal.jStr "Not connected to Binomo")] ∧
    notConnected503.calls = [] :=
  C9_disconnected_endpoints_return_503 svc0 client0 none "EURUSD" none none
    none "t1" none "EURUSD" rfl

end BinaryTradeX
